import Mathlib

/-!
Shallow embedding of the go-logx structured-logging package
(src/mask.go, src/logger.go, src/logx.go).

Modelling conventions:
* A Go string is its byte sequence, modelled as `List Nat` (Go's `len`,
  slicing `v[:1]` / `v[len(v)-1:]`, and `strings.ToLower` all operate on
  bytes; `strings.ToLower` is modelled on the ASCII range, which covers
  every key the package stores and every claim input).
* The global `sensitiveKeys` map (a set) is made an explicit `Finset`
  argument `reg`; the mutating functions return the new registry.
* `interface{}` field values are a closed sum `Value`; floats and
  arbitrary structured values are opaque tags carrying an identifier.
* The zap engine is opaque: a `ZapEngine` record captures the parameters
  `New` configures it with, and a leveled log call is modelled by the
  `Emission` record handed to the engine (severity, message, zap fields).
* `fmt.Sprintf` is an uninterpreted parameter `sprintf` of the formatted
  methods; `os.Exit(1)` after `Fatal` is outside the emission model.
* The `sync.Once` latch of `Init` is an explicit `GlobalState`; note the
  source's `err` is a fresh local on every call, so a skipped `once.Do`
  leaves it nil.
-/

namespace GoLogx

/-- A Go string as its byte sequence. -/
abbrev GoStr := List Nat

/-- Bytes of a (ASCII) string literal, for concrete inputs. -/
def str (s : String) : GoStr := s.toList.map Char.toNat

/-- strings.ToLower on one byte, ASCII range: 'A'..'Z' is 65..90. -/
def byteToLower (b : Nat) : Nat := if 65 ≤ b ∧ b ≤ 90 then b + 32 else b

/-- strings.ToLower on a Go string. -/
def goToLower (s : GoStr) : GoStr := s.map byteToLower

/-- The sensitiveKeys map of src/mask.go, as a set of byte strings. -/
abbrev Registry := Finset GoStr

/-- Initial contents of the sensitiveKeys map (src/mask.go lines 21-41). -/
def sensitiveKeysInit : List GoStr :=
  [str "password", str "passwd", str "pass", str "ssn", str "token",
   str "apikey", str "api_key", str "secret", str "key", str "email",
   str "phone", str "credit_card", str "cc", str "cvv", str "pin",
   str "auth", str "authorization", str "bearer", str "jwt"]

/-- The built-in sensitive-key registry value. -/
def sensitiveKeys : Registry := sensitiveKeysInit.toFinset

/-- AddSensitiveKey (src/mask.go 60-64): sensitiveKeys[strings.ToLower(key)] = true. -/
def AddSensitiveKey (r : Registry) (key : GoStr) : Registry :=
  insert (goToLower key) r

/-- RemoveSensitiveKey (src/mask.go 78-82): delete(sensitiveKeys, strings.ToLower(key)). -/
def RemoveSensitiveKey (r : Registry) (key : GoStr) : Registry :=
  r.erase (goToLower key)

/-- isSensitiveKey (src/mask.go 90-94): sensitiveKeys[strings.ToLower(key)]. -/
def isSensitiveKey (r : Registry) (key : GoStr) : Bool :=
  decide (goToLower key ∈ r)

/-- maskString (src/mask.go 115-126). `value[:n]` is `take n`,
`value[len(value)-n:]` is `drop (length - n)`. -/
def maskString (value : GoStr) : GoStr :=
  if value.length = 0 then []
  else if value.length ≤ 2 then str "***"
  else if value.length ≤ 4 then
    value.take 1 ++ str "***" ++ value.drop (value.length - 1)
  else
    value.take 2 ++ str "***" ++ value.drop (value.length - 2)

/-- Closed sum for the `interface{}` values the typed field constructors
produce (string, []byte, int, int64, float64, bool, error, nil, arbitrary).
Floats and arbitrary values are opaque tags. -/
inductive Value where
  | VString : GoStr → Value
  | VBytes : GoStr → Value
  | VInt : Int → Value
  | VInt64 : Int → Value
  | VFloat64 : Nat → Value
  | VBool : Bool → Value
  | VErr : GoStr → Value
  | VNil : Value
  | VOther : Nat → Value
deriving DecidableEq

/-- Whether the runtime type switch of maskSensitiveData matches the
`string` or `[]byte` case for this value. -/
def Value.isTextual : Value → Bool
  | .VString _ => true
  | .VBytes _ => true
  | _ => false

/-- maskSensitiveData (src/mask.go 145-165). -/
def maskSensitiveData (reg : Registry) (key : GoStr) (value : Value) : Value :=
  if ¬ isSensitiveKey reg key then value
  else
    match value with
    | .VString v => if v = [] then .VString v else .VString (maskString v)
    | .VBytes v => if v = [] then .VBytes v else .VString (maskString v)
    | _ => .VString (str "***MASKED***")

/-- Field (src/logger.go 23-26). -/
structure Field where
  Key : GoStr
  Value : Value
deriving DecidableEq

/-- Level (src/logx.go 18-51). -/
inductive Level where
  | TraceLevel | DebugLevel | InfoLevel | WarnLevel | ErrorLevel | FatalLevel
deriving DecidableEq

/-- zapcore severity levels used by the wrapper. -/
inductive ZapLevel where
  | debug | info | warn | error | fatal
deriving DecidableEq

/-- The level switch in New (src/logger.go 132-146): Trace maps to zap's
Debug because zap has no Trace. -/
def levelToZap : Level → ZapLevel
  | .TraceLevel => .debug
  | .DebugLevel => .debug
  | .InfoLevel => .info
  | .WarnLevel => .warn
  | .ErrorLevel => .error
  | .FatalLevel => .fatal

/-- Config (src/logx.go 81-107). OutputPath [] means stdout. -/
structure Config where
  Level : Level
  OutputPath : GoStr
  Development : Bool
  AddCaller : Bool
  AddStacktrace : Bool
deriving DecidableEq

/-- DefaultConfig (src/logx.go 118-126). -/
def DefaultConfig : Config :=
  { Level := .InfoLevel, OutputPath := [], Development := false,
    AddCaller := true, AddStacktrace := true }

/-- The zap logger instance New builds, kept opaque except for the
parameters the wrapper configures and an identity for handle sharing. -/
structure ZapEngine where
  id : Nat
  level : ZapLevel
  development : Bool
  outputPath : GoStr
  addCaller : Bool
  addStacktrace : Bool
deriving DecidableEq

/-- Logger (src/logger.go 107-111); the mutex guards no modelled state. -/
structure Logger where
  zapLogger : ZapEngine
  fields : List Field
deriving DecidableEq

/-- New (src/logger.go 130-204). `openFile` is the filesystem outcome of
os.OpenFile on a path; `engineId` identifies the fresh engine instance.
The only failure is an unopenable output file in the production branch. -/
def New (openFile : GoStr → Bool) (engineId : Nat) (config : Config) :
    Except GoStr Logger :=
  if ¬ config.Development ∧ config.OutputPath ≠ [] ∧ openFile config.OutputPath = false then
    .error (str "failed to open log file")
  else
    .ok { zapLogger :=
            { id := engineId, level := levelToZap config.Level,
              development := config.Development,
              outputPath := config.OutputPath,
              addCaller := config.AddCaller,
              addStacktrace := config.AddStacktrace },
          fields := [] }

/-- zap.Any(key, maskedValue): the field handed to the engine. -/
structure ZapField where
  key : GoStr
  value : Value
deriving DecidableEq

/-- convertFields (src/logger.go 207-217): masks each field by key. -/
def convertFields (reg : Registry) (fields : List Field) : List ZapField :=
  fields.map fun field =>
    { key := field.Key, value := maskSensitiveData reg field.Key field.Value }

/-- The log entry a leveled method hands to the zap engine. -/
structure Emission where
  level : ZapLevel
  msg : GoStr
  fields : List ZapField
deriving DecidableEq

/-- Trace (src/logger.go 225-229): emits through zap's Debug. -/
def Logger.Trace (reg : Registry) (l : Logger) (msg : GoStr)
    (fields : List Field) : Emission :=
  { level := .debug, msg := msg, fields := convertFields reg (l.fields ++ fields) }

/-- Debug (src/logger.go 237-241). -/
def Logger.Debug (reg : Registry) (l : Logger) (msg : GoStr)
    (fields : List Field) : Emission :=
  { level := .debug, msg := msg, fields := convertFields reg (l.fields ++ fields) }

/-- Info (src/logger.go 249-253). -/
def Logger.Info (reg : Registry) (l : Logger) (msg : GoStr)
    (fields : List Field) : Emission :=
  { level := .info, msg := msg, fields := convertFields reg (l.fields ++ fields) }

/-- Warn (src/logger.go 261-265). -/
def Logger.Warn (reg : Registry) (l : Logger) (msg : GoStr)
    (fields : List Field) : Emission :=
  { level := .warn, msg := msg, fields := convertFields reg (l.fields ++ fields) }

/-- Error (src/logger.go 273-277). -/
def Logger.Error (reg : Registry) (l : Logger) (msg : GoStr)
    (fields : List Field) : Emission :=
  { level := .error, msg := msg, fields := convertFields reg (l.fields ++ fields) }

/-- Fatal (src/logger.go 307-311); the subsequent os.Exit(1) is outside
the emission model. -/
def Logger.Fatal (reg : Registry) (l : Logger) (msg : GoStr)
    (fields : List Field) : Emission :=
  { level := .fatal, msg := msg, fields := convertFields reg (l.fields ++ fields) }

/-- Tracef (src/logger.go 285-288): msg := fmt.Sprintf(format, args...);
l.Trace(msg) with no fields. `sprintf` is uninterpreted. -/
def Logger.Tracef (reg : Registry) (sprintf : GoStr → List Value → GoStr)
    (l : Logger) (format : GoStr) (args : List Value) : Emission :=
  Logger.Trace reg l (sprintf format args) []

/-- Debugf (src/logger.go 296-299). -/
def Logger.Debugf (reg : Registry) (sprintf : GoStr → List Value → GoStr)
    (l : Logger) (format : GoStr) (args : List Value) : Emission :=
  Logger.Debug reg l (sprintf format args) []

/-- Infof (src/logger.go 353-356). -/
def Logger.Infof (reg : Registry) (sprintf : GoStr → List Value → GoStr)
    (l : Logger) (format : GoStr) (args : List Value) : Emission :=
  Logger.Info reg l (sprintf format args) []

/-- Warnf (src/logger.go 364-367). -/
def Logger.Warnf (reg : Registry) (sprintf : GoStr → List Value → GoStr)
    (l : Logger) (format : GoStr) (args : List Value) : Emission :=
  Logger.Warn reg l (sprintf format args) []

/-- Errorf (src/logger.go 375-378). -/
def Logger.Errorf (reg : Registry) (sprintf : GoStr → List Value → GoStr)
    (l : Logger) (format : GoStr) (args : List Value) : Emission :=
  Logger.Error reg l (sprintf format args) []

/-- Fatalf (src/logger.go 386-389). -/
def Logger.Fatalf (reg : Registry) (sprintf : GoStr → List Value → GoStr)
    (l : Logger) (format : GoStr) (args : List Value) : Emission :=
  Logger.Fatal reg l (sprintf format args) []

/-- With (src/logger.go 324-336): fresh slice of parent fields ++ new
fields, same engine handle; the parent value is untouched. -/
def Logger.With (l : Logger) (fields : List Field) : Logger :=
  { zapLogger := l.zapLogger, fields := l.fields ++ fields }

/-- The package globals of src/logx.go 128-134: the defaultLogger slot
and the sync.Once flag. -/
structure GlobalState where
  defaultLogger : Option Logger
  onceDone : Bool
deriving DecidableEq

/-- Process start: empty slot, once not fired. -/
def startState : GlobalState := { defaultLogger := none, onceDone := false }

/-- Init (src/logx.go 152-158). `var err error` is a fresh local each
call; once.Do runs the closure only when the flag is unset, so a
subsequent call returns the still-nil local, not the original error.
On a failed first attempt the closure assigns defaultLogger = nil. -/
def Init (openFile : GoStr → Bool) (engineId : Nat) (st : GlobalState)
    (config : Config) : GlobalState × Option GoStr :=
  if st.onceDone then (st, none)
  else
    match New openFile engineId config with
    | .ok l => ({ defaultLogger := some l, onceDone := true }, none)
    | .error e => ({ defaultLogger := none, onceDone := true }, some e)

/-- A concrete fmt.Sprintf instance for demonstrations, behaving like a
template whose trailing verbs splice in the string arguments verbatim. -/
def sprintfCat (format : GoStr) (args : List Value) : GoStr :=
  format ++ (args.map fun a => match a with | .VString s => s | _ => []).flatten

/-- A concrete logger with no sticky fields, for demonstrations. -/
def demoLogger : Logger :=
  { zapLogger := { id := 0, level := .info, development := false,
                   outputPath := [], addCaller := true, addStacktrace := true },
    fields := [] }

/-- A filesystem on which no output file can be opened, for demonstrations. -/
def openNone : GoStr → Bool := fun _ => false

/-- A production config pointing at an unopenable output file. -/
def badPathConfig : Config := { DefaultConfig with OutputPath := str "/no/such/dir/log" }

end GoLogx

namespace GoLogx

theorem byteToLower_idem (b : Nat) : byteToLower (byteToLower b) = byteToLower b := by
  by_cases h : 65 ≤ b ∧ b ≤ 90
  · have h32 : ¬ (65 ≤ b + 32 ∧ b + 32 ≤ 90) := by omega
    simp only [byteToLower, if_pos h]
    rw [if_neg h32]
  · simp only [byteToLower, if_neg h]

theorem goToLower_idem (s : GoStr) : goToLower (goToLower s) = goToLower s := by
  induction s with
  | nil => rfl
  | cons b t ih =>
    simp only [goToLower, List.map_cons] at *
    exact List.cons_eq_cons.2 ⟨byteToLower_idem b, ih⟩

/-- C3: when isSensitiveKey is false, maskSensitiveData returns the value
completely unchanged, whatever its runtime type — masking is the identity
on non-sensitive fields. -/
theorem mask_nonsensitive_identity (reg : Registry) (k : GoStr) (v : Value)
    (h : isSensitiveKey reg k = false) : maskSensitiveData reg k v = v := by
  simp [maskSensitiveData, h]

theorem mask_nonsensitive_identity_witness :
    maskSensitiveData sensitiveKeys (str "username") (.VString (str "john_doe"))
      = .VString (str "john_doe") :=
  mask_nonsensitive_identity sensitiveKeys (str "username") _ (by decide)

/-- C7: maskSensitiveData is a total function (it is defined for every key
and value of the closed value sum, so no error or panic is possible), and
for a sensitive key it maps every value whose runtime type is neither a
text string nor a byte sequence to the sentinel text "***MASKED***". -/
theorem mask_other_types_sentinel (reg : Registry) (k : GoStr) (v : Value)
    (hk : isSensitiveKey reg k = true) (hv : v.isTextual = false) :
    maskSensitiveData reg k v = .VString (str "***MASKED***") := by
  cases v <;> simp_all [maskSensitiveData, Value.isTextual]

theorem mask_other_types_sentinel_witness :
    maskSensitiveData sensitiveKeys (str "secret") (.VInt 12345)
      = .VString (str "***MASKED***") :=
  mask_other_types_sentinel sensitiveKeys (str "secret") (.VInt 12345)
    (by decide) (by decide)

/-- C6 counterexample: for the sensitive key "token" and the empty byte
sequence, maskSensitiveData returns the empty byte sequence itself, not
empty text — the result is not of text type, contradicting the claim. -/
theorem mask_bytes_empty_counterexample :
    maskSensitiveData sensitiveKeys (str "token") (.VBytes []) = .VBytes []
    ∧ maskSensitiveData sensitiveKeys (str "token") (.VBytes []) ≠ .VString [] := by
  decide

/-- C6 amended: for a sensitive key, a nonempty byte-sequence value is
converted to its text representation and masked by the string rule, and
that result is of text type; the empty byte sequence alone is returned
unchanged as a byte sequence. -/
theorem mask_bytes_to_text (reg : Registry) (k : GoStr) (v : GoStr)
    (hk : isSensitiveKey reg k = true) (hv : v ≠ []) :
    maskSensitiveData reg k (.VBytes v) = .VString (maskString v)
    ∧ maskSensitiveData reg k (.VBytes []) = .VBytes [] := by
  constructor
  · simp [maskSensitiveData, hk, hv]
  · simp [maskSensitiveData, hk]

theorem mask_bytes_to_text_witness :
    maskSensitiveData sensitiveKeys (str "token") (.VBytes (str "abc123"))
      = .VString (str "ab***23") := by
  have h := mask_bytes_to_text sensitiveKeys (str "token") (str "abc123")
    (by decide) (by decide)
  rw [h.1]; decide

end GoLogx

namespace GoLogx

/-- C2: for every sensitive key and text value, masking applies the
length-banded string rule: length 0 gives empty text, 1-2 gives "***",
3-4 gives first character + "***" + last character, and at least 5 gives
first two + "***" + last two; with the claim's six boundary examples. -/
theorem mask_sensitive_string_banded (reg : Registry) (k : GoStr) (v : GoStr)
    (hk : isSensitiveKey reg k = true) :
    maskSensitiveData reg k (.VString v) = .VString (maskString v)
    ∧ (v.length = 0 → maskString v = [])
    ∧ ((v.length = 1 ∨ v.length = 2) → maskString v = str "***")
    ∧ ((v.length = 3 ∨ v.length = 4) →
        maskString v = v.take 1 ++ str "***" ++ v.rtake 1)
    ∧ (5 ≤ v.length → maskString v = v.take 2 ++ str "***" ++ v.rtake 2)
    ∧ maskSensitiveData reg k (.VString (str "")) = .VString (str "")
    ∧ maskSensitiveData reg k (.VString (str "a")) = .VString (str "***")
    ∧ maskSensitiveData reg k (.VString (str "ab")) = .VString (str "***")
    ∧ maskSensitiveData reg k (.VString (str "abc")) = .VString (str "a***c")
    ∧ maskSensitiveData reg k (.VString (str "abcd")) = .VString (str "a***d")
    ∧ maskSensitiveData reg k (.VString (str "abcdef")) = .VString (str "ab***ef") := by
  have hms : ∀ w : GoStr, maskSensitiveData reg k (.VString w) = .VString (maskString w) := by
    intro w
    by_cases hw : w = []
    · subst hw; simp [maskSensitiveData, hk, maskString]
    · simp [maskSensitiveData, hk, hw]
  refine ⟨hms v, ?_, ?_, ?_, ?_, ?_, ?_, ?_, ?_, ?_, ?_⟩
  · intro h; simp [maskString, h]
  · rintro (h | h) <;> simp [maskString, h]
  · rintro (h | h) <;> simp [maskString, List.rtake, h]
  · intro h
    have h0 : ¬ v.length = 0 := by omega
    have h2 : ¬ v.length ≤ 2 := by omega
    have h4 : ¬ v.length ≤ 4 := by omega
    simp [maskString, h0, h2, h4, List.rtake]
  · rw [hms]; decide
  · rw [hms]; decide
  · rw [hms]; decide
  · rw [hms]; decide
  · rw [hms]; decide
  · rw [hms]; decide

theorem mask_sensitive_string_banded_witness :
    maskSensitiveData sensitiveKeys (str "password") (.VString (str "abcdef"))
      = .VString (str "ab***ef") :=
  (mask_sensitive_string_banded sensitiveKeys (str "password") (str "abcdef")
    (by decide)).2.2.2.2.2.2.2.2.2.2

/-- C10: the length of maskString takes only the values 0, 3, 5, 7,
determined solely by the length band of the input (0; 1-2; 3-4; at least
5), and in particular never exceeds 7. -/
theorem maskString_length_banded (v : GoStr) :
    ((maskString v).length = 0 ∨ (maskString v).length = 3 ∨
      (maskString v).length = 5 ∨ (maskString v).length = 7)
    ∧ (v.length = 0 → (maskString v).length = 0)
    ∧ ((v.length = 1 ∨ v.length = 2) → (maskString v).length = 3)
    ∧ ((v.length = 3 ∨ v.length = 4) → (maskString v).length = 5)
    ∧ (5 ≤ v.length → (maskString v).length = 7)
    ∧ (maskString v).length ≤ 7 := by
  have hstars : (str "***").length = 3 := by decide
  have hlen : (maskString v).length =
      if v.length = 0 then 0 else if v.length ≤ 2 then 3
      else if v.length ≤ 4 then 5 else 7 := by
    by_cases h0 : v.length = 0
    · simp [maskString, h0]
    · by_cases h2 : v.length ≤ 2
      · simp [maskString, h0, h2, hstars]
      · by_cases h4 : v.length ≤ 4
        · simp [maskString, h0, h2, h4, hstars]
          omega
        · simp [maskString, h0, h2, h4, hstars]
          omega
  refine ⟨?_, ?_, ?_, ?_, ?_, ?_⟩
  · rw [hlen]; split_ifs; all_goals omega
  · intro h; rw [hlen]; split_ifs; all_goals omega
  · intro h; rw [hlen]; split_ifs; all_goals omega
  · intro h; rw [hlen]; split_ifs; all_goals omega
  · intro h; rw [hlen]; split_ifs; all_goals omega
  · rw [hlen]; split_ifs; all_goals omega

theorem maskString_length_banded_witness :
    (maskString (str "abcdefgh")).length = 7 ∧ (maskString (str "ab")).length = 3 :=
  ⟨(maskString_length_banded (str "abcdefgh")).2.2.2.2.1 (by decide),
   (maskString_length_banded (str "ab")).2.2.1 (Or.inr (by decide))⟩

end GoLogx

namespace GoLogx

/-- C1: every leveled method (Trace/Debug/Info/Warn/Error/Fatal) hands the
engine exactly the logger's sticky fields followed by the call-site
fields, in that order, each passed through maskSensitiveData by its key;
the emitted key sequence is the plain concatenation of both key lists, so
repeated keys are not de-duplicated, and the message is untouched. -/
theorem leveled_methods_emit_masked_concat (reg : Registry) (l : Logger)
    (m : GoStr) (fs : List Field) :
    (Logger.Trace reg l m fs).fields
        = (l.fields ++ fs).map (fun f =>
            { key := f.Key, value := maskSensitiveData reg f.Key f.Value })
    ∧ (Logger.Debug reg l m fs).fields = (Logger.Trace reg l m fs).fields
    ∧ (Logger.Info reg l m fs).fields = (Logger.Trace reg l m fs).fields
    ∧ (Logger.Warn reg l m fs).fields = (Logger.Trace reg l m fs).fields
    ∧ (Logger.Error reg l m fs).fields = (Logger.Trace reg l m fs).fields
    ∧ (Logger.Fatal reg l m fs).fields = (Logger.Trace reg l m fs).fields
    ∧ (Logger.Info reg l m fs).msg = m
    ∧ (Logger.Info reg l m fs).fields.map ZapField.key
        = l.fields.map Field.Key ++ fs.map Field.Key := by
  refine ⟨rfl, rfl, rfl, rfl, rfl, rfl, rfl, ?_⟩
  simp only [Logger.Info, convertFields, List.map_map, List.map_append]
  rfl

/-- C4: each formatted method equals the corresponding plain method called
with the Sprintf-formatted message and zero call-site fields; the emitted
message is the formatted text itself, untouched by any masking, while the
sticky fields still travel through the masked plain path. Concretely, a
secret interpolated through Infof appears verbatim in the message, while
the same secret passed as a "password" field through Info is masked. -/
theorem formatted_methods_equal_plain_sprintf (reg : Registry)
    (sprintf : GoStr → List Value → GoStr) (l : Logger) (format : GoStr)
    (args : List Value) :
    Logger.Tracef reg sprintf l format args
        = Logger.Trace reg l (sprintf format args) []
    ∧ Logger.Debugf reg sprintf l format args
        = Logger.Debug reg l (sprintf format args) []
    ∧ Logger.Infof reg sprintf l format args
        = Logger.Info reg l (sprintf format args) []
    ∧ Logger.Warnf reg sprintf l format args
        = Logger.Warn reg l (sprintf format args) []
    ∧ Logger.Errorf reg sprintf l format args
        = Logger.Error reg l (sprintf format args) []
    ∧ Logger.Fatalf reg sprintf l format args
        = Logger.Fatal reg l (sprintf format args) []
    ∧ (Logger.Infof reg sprintf l format args).msg = sprintf format args
    ∧ (Logger.Infof reg sprintf l format args).fields = convertFields reg l.fields
    ∧ (Logger.Infof sensitiveKeys sprintfCat demoLogger (str "password is ")
        [.VString (str "hunter22")]).msg = str "password is hunter22"
    ∧ (Logger.Info sensitiveKeys demoLogger (str "login")
        [{ Key := str "password", Value := .VString (str "hunter22") }]).fields
        = [{ key := str "password", value := .VString (str "hu***22") }] := by
  refine ⟨rfl, rfl, rfl, rfl, rfl, rfl, rfl, ?_, ?_, ?_⟩
  · simp [Logger.Infof, Logger.Info]
  · decide
  · decide

/-- C8: With returns a child sharing the parent's engine handle whose
sticky fields are the parent's followed by the given fields; the parent
value is unchanged, so logging through the parent still emits exactly its
own masked sticky fields — never the child's extra fields — while the
child emits the concatenation. -/
theorem with_child_engine_and_fields (reg : Registry) (p : Logger)
    (fs : List Field) (m : GoStr) :
    (p.With fs).zapLogger = p.zapLogger
    ∧ (p.With fs).fields = p.fields ++ fs
    ∧ (Logger.Info reg (p.With fs) m []).fields = convertFields reg (p.fields ++ fs)
    ∧ (Logger.Info reg p m []).fields = convertFields reg p.fields
    ∧ (Logger.Info reg p m []).fields.length = p.fields.length := by
  refine ⟨rfl, rfl, ?_, ?_, ?_⟩ <;> simp [Logger.Info, Logger.With, convertFields]

end GoLogx

namespace GoLogx

/-- C9: sensitive-key registry operations are case-insensitive — after
AddSensitiveKey k, any key with the same lowercase form tests sensitive,
and after RemoveSensitiveKey k it tests non-sensitive; add and remove are
idempotent, removing an absent key is a no-op, both operations preserve
the all-lowercase invariant of the stored keys, and the built-in registry
already satisfies it. -/
theorem sensitive_key_registry_ops (r : Registry) (k kv : GoStr)
    (hvar : goToLower kv = goToLower k) :
    isSensitiveKey (AddSensitiveKey r k) kv = true
    ∧ isSensitiveKey (RemoveSensitiveKey r k) kv = false
    ∧ AddSensitiveKey (AddSensitiveKey r k) k = AddSensitiveKey r k
    ∧ RemoveSensitiveKey (RemoveSensitiveKey r k) k = RemoveSensitiveKey r k
    ∧ (goToLower k ∉ r → RemoveSensitiveKey r k = r)
    ∧ ((∀ s ∈ r, goToLower s = s) → ∀ s ∈ AddSensitiveKey r k, goToLower s = s)
    ∧ ((∀ s ∈ r, goToLower s = s) → ∀ s ∈ RemoveSensitiveKey r k, goToLower s = s)
    ∧ (∀ s ∈ sensitiveKeys, goToLower s = s) := by
  refine ⟨?_, ?_, ?_, ?_, ?_, ?_, ?_, ?_⟩
  · simp [isSensitiveKey, AddSensitiveKey, hvar]
  · simp [isSensitiveKey, RemoveSensitiveKey, hvar]
  · simp [AddSensitiveKey]
  · simp [RemoveSensitiveKey, Finset.erase_idem]
  · intro h; simp [RemoveSensitiveKey, Finset.erase_eq_of_not_mem h]
  · intro hlow s hs
    rcases Finset.mem_insert.1 hs with h | h
    · exact h ▸ goToLower_idem k
    · exact hlow s h
  · intro hlow s hs
    exact hlow s (Finset.mem_of_mem_erase hs)
  · decide

theorem sensitive_key_registry_ops_witness :
    isSensitiveKey (AddSensitiveKey sensitiveKeys (str "MyCustomKey")) (str "MYCUSTOMKEY") = true
    ∧ isSensitiveKey (RemoveSensitiveKey sensitiveKeys (str "PASSWORD")) (str "Password") = false :=
  ⟨(sensitive_key_registry_ops sensitiveKeys (str "MyCustomKey") (str "MYCUSTOMKEY")
      (by decide)).1,
   (sensitive_key_registry_ops sensitiveKeys (str "PASSWORD") (str "Password")
      (by decide)).2.1⟩

/-- C5 counterexample: with an unopenable output path, the first Init
returns the file-open error, but the second call returns nil rather than
that original error, contradicting the claim that every subsequent call
returns the error from the original attempt. -/
theorem init_second_call_nil_counterexample :
    (Init openNone 0 startState badPathConfig).2 = some (str "failed to open log file")
    ∧ (Init openNone 1 (Init openNone 0 startState badPathConfig).1 DefaultConfig).2 = none
    ∧ (Init openNone 1 (Init openNone 0 startState badPathConfig).1 DefaultConfig).2
        ≠ (Init openNone 0 startState badPathConfig).2 := by
  decide

/-- C5 amended: Init is a one-shot latch: the first call runs New, stores
the constructed logger in the slot (or leaves it empty on failure) and
returns New's error; every subsequent call, regardless of configuration,
leaves the state of the first call in effect and returns nil — the
original attempt's error is returned only by the first call itself. -/
theorem init_one_shot_latch (ofl : GoStr → Bool) (eid eid2 : Nat)
    (st : GlobalState) (c c2 : Config) (h : st.onceDone = false) :
    (Init ofl eid st c).1.onceDone = true
    ∧ (Init ofl eid st c).2
        = (match New ofl eid c with | .ok _ => none | .error e => some e)
    ∧ (Init ofl eid st c).1.defaultLogger
        = (match New ofl eid c with | .ok l => some l | .error _ => none)
    ∧ Init ofl eid2 (Init ofl eid st c).1 c2 = ((Init ofl eid st c).1, none) := by
  cases hN : New ofl eid c with
  | error e => simp [Init, h, hN]
  | ok l => simp [Init, h, hN]

theorem init_one_shot_latch_witness :
    (Init openNone 0 startState badPathConfig).1.onceDone = true
    ∧ Init openNone 1 (Init openNone 0 startState badPathConfig).1 DefaultConfig
        = ((Init openNone 0 startState badPathConfig).1, none) := by
  have h := init_one_shot_latch openNone 0 1 startState badPathConfig DefaultConfig rfl
  exact ⟨h.1, h.2.2.2⟩

end GoLogx
